import Mathlib

/-!
Shallow embedding of `src/main.js` (personal-website navigation script).

The script has three components:
* the scroll spy (`initScrollSpy` / `updateActiveNavLink`), which marks the
  nav link of the most recently intersecting section as active;
* the smooth-scroll click handler installed by `initSmoothScroll`;
* the header scroll-shadow controller (`initHeaderScrollBehavior` /
  `handleScroll`) with its requestAnimationFrame throttle.

DOM elements are modelled by small structures carrying exactly the attributes
the script reads or writes; event handlers become pure functions on those
structures, with JavaScript null dereferences made explicit as `Except`
errors.
-/

namespace MainJs

/-- A navigation link (an element matching `.nav__link`): its `href`
attribute (`none` models a missing attribute, i.e. `getAttribute` returning
`null`) and whether it currently carries the `nav__link--active` class. -/
structure NavLink where
  href : Option String
  active : Bool
deriving DecidableEq, Repr

/-- An intersection-observer entry as consumed by the callback in
`initScrollSpy`: the observed target section's `id` and its
`isIntersecting` flag. -/
structure Entry where
  targetId : String
  isIntersecting : Bool
deriving DecidableEq, Repr

/-- `updateActiveNavLink` from `src/main.js` (lines 49-61): for every link,
remove `nav__link--active`, then add it back exactly when the link's `href`
equals `"#" ++ activeSectionId`. -/
def updateActiveNavLink (activeSectionId : String) (navLinks : List NavLink) :
    List NavLink :=
  navLinks.map fun link =>
    { link with active := link.href == some ("#" ++ activeSectionId) }

/-- The intersection-observer callback of `initScrollSpy` (lines 29-36),
applied to one batch of entries: entries are processed in delivery order,
and each intersecting entry triggers `updateActiveNavLink` with its target's
id. A list of entries also models the concatenation of several batches. -/
def processEntries (navLinks : List NavLink) (entries : List Entry) :
    List NavLink :=
  entries.foldl
    (fun links entry =>
      if entry.isIntersecting then updateActiveNavLink entry.targetId links
      else links)
    navLinks

/-- Number of nav links currently carrying the active class. -/
def countActive (navLinks : List NavLink) : Nat :=
  (navLinks.filter (fun l => l.active)).length

/-- The effect of one observer entry on a single nav link; `processEntries`
is the pointwise application of a fold of these (`processEntries_eq_map`). -/
def stepLink (entry : Entry) (link : NavLink) : NavLink :=
  if entry.isIntersecting then
    { link with active := link.href == some ("#" ++ entry.targetId) }
  else link

theorem updateActiveNavLink_eq_map (s : String) (navLinks : List NavLink) :
    updateActiveNavLink s navLinks =
      navLinks.map (fun l => stepLink ⟨s, true⟩ l) := by
  simp [updateActiveNavLink, stepLink]

theorem processEntries_eq_map (entries : List Entry) (navLinks : List NavLink) :
    processEntries navLinks entries =
      navLinks.map (fun l => entries.foldl (fun l e => stepLink e l) l) := by
  induction entries generalizing navLinks with
  | nil => simp [processEntries]
  | cons e es ih =>
    have hstep :
        (if e.isIntersecting then updateActiveNavLink e.targetId navLinks
         else navLinks) = navLinks.map (fun l => stepLink e l) := by
      cases he : e.isIntersecting with
      | true =>
        simp only [if_pos]
        rw [updateActiveNavLink_eq_map]
        apply List.map_congr_left
        intro l _
        simp [stepLink, he]
      | false =>
        simp [stepLink, he]
    calc processEntries navLinks (e :: es)
        = processEntries
            (if e.isIntersecting then updateActiveNavLink e.targetId navLinks
             else navLinks) es := by
          simp [processEntries]
      _ = (navLinks.map (fun l => stepLink e l)).map
            (fun l => es.foldl (fun l e => stepLink e l) l) := by
          rw [hstep, ih]
      _ = navLinks.map (fun l => (e :: es).foldl (fun l e => stepLink e l) l) := by
          rw [List.map_map]
          rfl

theorem stepLink_href (e : Entry) (l : NavLink) : (stepLink e l).href = l.href := by
  unfold stepLink
  split <;> rfl

theorem countActive_updateActiveNavLink (s : String) (navLinks : List NavLink) :
    countActive (updateActiveNavLink s navLinks) =
      navLinks.countP (fun l => l.href == some ("#" ++ s)) := by
  simp only [countActive, updateActiveNavLink,
    ← List.countP_eq_length_filter, List.countP_map]
  rfl

theorem updateActiveNavLink_map_href (s : String) (navLinks : List NavLink) :
    (updateActiveNavLink s navLinks).map NavLink.href =
      navLinks.map NavLink.href := by
  simp [updateActiveNavLink, List.map_map]

theorem countP_href_le_one_of_nodup (v : Option String) :
    ∀ navLinks : List NavLink, (navLinks.map NavLink.href).Nodup →
      navLinks.countP (fun l => l.href == v) ≤ 1 := by
  intro navLinks
  induction navLinks with
  | nil => intro _; simp
  | cons a t ih =>
    intro hnodup
    rw [List.map_cons, List.nodup_cons] at hnodup
    rw [List.countP_cons]
    cases hv : (a.href == v) with
    | false => simpa using ih hnodup.2
    | true =>
      have hav : a.href = v := by exact beq_iff_eq.mp hv
      have hzero : t.countP (fun l => l.href == v) = 0 := by
        apply List.countP_eq_zero.mpr
        intro x hx
        have : x.href ≠ v := by
          intro hxe
          have hmem : a.href ∈ t.map NavLink.href := by
            rw [hav, ← hxe]
            exact List.mem_map_of_mem NavLink.href hx
          exact hnodup.1 hmem
        simpa using this
      simp [hzero]

theorem countActive_updateActiveNavLink_le_one (s : String)
    (navLinks : List NavLink) (hnodup : (navLinks.map NavLink.href).Nodup) :
    countActive (updateActiveNavLink s navLinks) ≤ 1 := by
  rw [countActive_updateActiveNavLink]
  exact countP_href_le_one_of_nodup _ navLinks hnodup

theorem foldl_stepLink_inactive (sections : List String) :
    ∀ (entries : List Entry) (l : NavLink),
      (∀ e ∈ entries, e.targetId ∈ sections) →
      l.active = false →
      (∀ s ∈ sections, l.href ≠ some ("#" ++ s)) →
      (entries.foldl (fun l e => stepLink e l) l).active = false := by
  intro entries
  induction entries with
  | nil => intro l _ hact _; simpa using hact
  | cons e es ih =>
    intro l hent hact hmiss
    have hsec : e.targetId ∈ sections := hent e (List.mem_cons_self e es)
    have hstep : (stepLink e l).active = false := by
      unfold stepLink
      split
      · simpa using beq_eq_false_iff_ne.mpr (hmiss e.targetId hsec)
      · exact hact
    have hstep2 : ∀ s ∈ sections, (stepLink e l).href ≠ some ("#" ++ s) := by
      intro s hs
      rw [stepLink_href]
      exact hmiss s hs
    have := ih (stepLink e l)
      (fun e2 he2 => hent e2 (List.mem_cons_of_mem e he2)) hstep hstep2
    simpa using this

/-- C1 (counterexample): the claim "after each notification is handled at
most one NavLink carries the active class" fails for arbitrary NavLink sets.
With two links that both have href `#a`, one intersection notification for
section `a` leaves both links active, because `updateActiveNavLink`
activates every link whose href matches. -/
theorem duplicate_hrefs_make_two_links_active :
    ¬ (countActive (processEntries
        [⟨some "#a", false⟩, ⟨some "#a", false⟩] [⟨"a", true⟩]) ≤ 1) := by
  decide

/-- C1 (amended): for every set of NavLinks with pairwise-distinct href
attributes and at most one initially active link, after any sequence of
intersection notifications at most one NavLink carries the active class
(quantifying over all entry lists covers the state after each handled
notification, since that state is `processEntries` of a prefix). -/
theorem at_most_one_active_of_nodup_hrefs (navLinks : List NavLink)
    (hnodup : (navLinks.map NavLink.href).Nodup)
    (hinit : countActive navLinks ≤ 1) (entries : List Entry) :
    countActive (processEntries navLinks entries) ≤ 1 := by
  induction entries generalizing navLinks with
  | nil => simpa [processEntries] using hinit
  | cons e es ih =>
    have hstep : processEntries navLinks (e :: es) =
        processEntries
          (if e.isIntersecting then updateActiveNavLink e.targetId navLinks
           else navLinks) es := by
      simp [processEntries]
    rw [hstep]
    cases he : e.isIntersecting with
    | true =>
      rw [if_pos rfl]
      exact ih _ (by rw [updateActiveNavLink_map_href]; exact hnodup)
        (countActive_updateActiveNavLink_le_one _ _ hnodup)
    | false =>
      rw [if_neg Bool.false_ne_true]
      exact ih _ hnodup hinit

theorem at_most_one_active_of_nodup_hrefs_witness :
    ((([⟨some "#a", false⟩, ⟨some "#b", false⟩] : List NavLink).map
        NavLink.href).Nodup ∧
      countActive [⟨some "#a", false⟩, ⟨some "#b", false⟩] ≤ 1) ∧
    countActive (processEntries [⟨some "#a", false⟩, ⟨some "#b", false⟩]
      [⟨"a", true⟩, ⟨"b", true⟩]) ≤ 1 :=
  ⟨⟨by decide, by decide⟩,
    at_most_one_active_of_nodup_hrefs _ (by decide) (by decide) _⟩

/-- C5: an intersection notification for section `s` is exactly one
`updateActiveNavLink s` pass, after which a link is active if and only if
its href is `#s`; in particular every previously active link referencing a
different section loses the active class. -/
theorem entry_activates_exactly_matching (navLinks : List NavLink)
    (s : String) :
    processEntries navLinks [⟨s, true⟩] = updateActiveNavLink s navLinks ∧
    ∀ l ∈ updateActiveNavLink s navLinks,
      (l.active = true ↔ l.href = some ("#" ++ s)) := by
  constructor
  · simp [processEntries]
  · intro l hl
    simp only [updateActiveNavLink, List.mem_map] at hl
    obtain ⟨x, _, rfl⟩ := hl
    simp

theorem entry_activates_exactly_matching_witness :
    (⟨some "#a", true⟩ : NavLink) ∈
      updateActiveNavLink "a" [⟨some "#a", false⟩, ⟨some "#b", true⟩] ∧
    ((⟨some "#a", true⟩ : NavLink).active = true ↔
      (⟨some "#a", true⟩ : NavLink).href = some ("#" ++ "a")) :=
  ⟨by decide,
    (entry_activates_exactly_matching [⟨some "#a", false⟩, ⟨some "#b", true⟩]
      "a").2 _ (by decide)⟩

/-- C8: a NavLink whose href matches no observed section id is never
activated: if it starts inactive, it stays inactive after every sequence of
intersection notifications whose targets are observed sections. -/
theorem unmatched_link_never_activated (sections : List String)
    (entries : List Entry) (navLinks : List NavLink) (i : Nat)
    (hi : i < navLinks.length)
    (hi2 : i < (processEntries navLinks entries).length)
    (hact : navLinks[i].active = false)
    (hmiss : ∀ s ∈ sections, navLinks[i].href ≠ some ("#" ++ s))
    (hent : ∀ e ∈ entries, e.targetId ∈ sections) :
    (processEntries navLinks entries)[i].active = false := by
  have hmap := processEntries_eq_map entries navLinks
  simp only [hmap, List.getElem_map]
  exact foldl_stepLink_inactive sections entries (navLinks[i]) hent hact hmiss

theorem unmatched_link_never_activated_witness :
    ((⟨some "#zzz", false⟩ : NavLink).active = false ∧
      ∀ s ∈ (["a"] : List String),
        (⟨some "#zzz", false⟩ : NavLink).href ≠ some ("#" ++ s)) ∧
    ((processEntries [⟨some "#zzz", false⟩] [⟨"a", true⟩]).get
        ⟨0, by decide⟩).active = false :=
  ⟨⟨by decide, by decide⟩,
    unmatched_link_never_activated ["a"] [⟨"a", true⟩] [⟨some "#zzz", false⟩]
      0 (by decide) (by decide) (by decide) (by decide) (by decide)⟩

/-! ### Smooth-scroll click handler (`initSmoothScroll`, lines 71-105) -/

/-- An element with an `id` attribute, as found by `getElementById`; the
script reads only its `offsetTop`. -/
structure Element where
  id : String
  offsetTop : Int
deriving DecidableEq, Repr

/-- The `.header` element: the script reads its `offsetHeight` and mutates
its class list. -/
structure Header where
  offsetHeight : Int
  classes : List String
deriving DecidableEq, Repr

/-- The parts of the rendered document the handlers consult: the elements
with ids (the domain of `getElementById`) and the result of
`document.querySelector(".header")` (`none` when no header exists). -/
structure Document where
  elements : List Element
  header : Option Header
deriving DecidableEq, Repr

/-- `document.getElementById`: the first element whose id matches. -/
def getElementById (doc : Document) (targetId : String) : Option Element :=
  doc.elements.find? (fun el => el.id == targetId)

/-- A JavaScript runtime error reachable by this script: dereferencing a
`null` element (a TypeError on property access). -/
inductive DOMError where
  | nullHeader
deriving DecidableEq, Repr

/-- The observable outcome of one click on a nav link: whether
`e.preventDefault()` ran, the `top` passed to the smooth `window.scrollTo`
call (if one was issued), and the hash passed to `history.pushState` (if
called). `pushState` rewrites the URL without navigating or scrolling, so
it is recorded separately from the scroll. -/
structure ClickOutcome where
  preventedDefault : Bool
  smoothScrollTop : Option Int
  pushedHash : Option String
deriving DecidableEq, Repr

/-- `href.startsWith("#")` from line 79, embedded at the character level
(true exactly when the first character is `#`; false on the empty string,
which the preceding `href &&` truthiness test also rejects). -/
def jsStartsWithHash (s : String) : Bool :=
  match s.data with
  | [] => false
  | c :: _ => c == '#'

/-- `href.substring(1)` from line 80: drop the leading character. -/
def jsDropFirst (s : String) : String :=
  String.mk (s.data.drop 1)

/-- The click handler installed by `initSmoothScroll` (lines 75-103) for a
link whose `getAttribute("href")` is `href`. Every property access in the
body is null-guarded, so the handler always returns an outcome; a target or
header that is not found only downgrades the action (`Except` makes a
hypothetical null dereference expressible, as in `handleScroll`). -/
def handleNavClick (doc : Document) (href : Option String) :
    Except DOMError ClickOutcome :=
  match href with
  | none => .ok { preventedDefault := false, smoothScrollTop := none,
                  pushedHash := none }
  | some h =>
    if jsStartsWithHash h then
      let targetId := jsDropFirst h
      match getElementById doc targetId with
      | some targetSection =>
        let headerHeight : Int :=
          match doc.header with
          | some hd => hd.offsetHeight
          | none => 0
        let targetPosition := targetSection.offsetTop - headerHeight
        .ok { preventedDefault := true, smoothScrollTop := some targetPosition,
              pushedHash := some h }
      | none => .ok { preventedDefault := false, smoothScrollTop := none,
                      pushedHash := none }
    else
      .ok { preventedDefault := false, smoothScrollTop := none,
            pushedHash := none }

/-! ### Header scroll behavior (`initHeaderScrollBehavior`, lines 115-146) -/

/-- `classList.add`: append the class when absent (token lists are sets). -/
def addClass (classes : List String) (c : String) : List String :=
  if c ∈ classes then classes else classes ++ [c]

/-- `classList.remove`: drop the class. -/
def removeClass (classes : List String) (c : String) : List String :=
  classes.filter (fun x => x ≠ c)

/-- `classList.contains`: membership in the class list. -/
def hasClass (h : Header) (c : String) : Bool :=
  decide (c ∈ h.classes)

/-- The body of `handleScroll` (lines 119-130) on a non-null header, at
current scroll offset `y`: add `header--scrolled` when `y > 10`, else
remove it. (`lastScrollY` is tracked by the closure state, not here.) -/
def handleScrollBody (h : Header) (y : Int) : Header :=
  if y > 10 then { h with classes := addClass h.classes "header--scrolled" }
  else { h with classes := removeClass h.classes "header--scrolled" }

/-- `handleScroll` as captured by `initHeaderScrollBehavior`: `header` is
the `querySelector(".header")` result from line 116; when it is `null`,
line 124/126 dereferences it and throws. Returns the updated header and the
new `lastScrollY` (set to the current offset, line 129). -/
def handleScroll (header : Option Header) (y : Int) :
    Except DOMError (Header × Int) :=
  match header with
  | none => .error .nullHeader
  | some h => .ok (handleScrollBody h y, y)

/-- The closure state of `initHeaderScrollBehavior` after a successful
initialization: the header element, the `lastScrollY` variable (line 117 /
129), and the `ticking` flag of the requestAnimationFrame throttle (line
133). `ticking` is true exactly while a frame callback is scheduled: the
scroll listener sets it when scheduling (line 140) and the callback clears
it (line 138). -/
structure CtlState where
  header : Header
  lastScrollY : Int
  ticking : Bool
deriving DecidableEq, Repr

/-- Events delivered to the controller: a scroll notification, or a
rendering frame firing (running the scheduled callback, if any); `y` is
`window.scrollY` at the moment the code would read it. -/
inductive CtlEvent where
  | scroll (y : Int)
  | frame (y : Int)
deriving DecidableEq, Repr

/-- One event step of the controller (lines 134-142), returning the next
state and the number of `handleScroll` executions the step performed. A
scroll notification only schedules a callback when none is pending; the
callback itself runs `handleScroll` once at the next frame. -/
def ctlStep (s : CtlState) : CtlEvent → CtlState × Nat
  | .scroll _ =>
    if s.ticking then (s, 0) else ({ s with ticking := true }, 0)
  | .frame y =>
    if s.ticking then
      ({ header := handleScrollBody s.header y, lastScrollY := y,
         ticking := false }, 1)
    else (s, 0)

/-- Run a list of events in order, accumulating `handleScroll` executions. -/
def runEvents (s : CtlState) : List CtlEvent → CtlState × Nat
  | [] => (s, 0)
  | e :: es =>
    let p := ctlStep s e
    let q := runEvents p.1 es
    (q.1, p.2 + q.2)

/-- `initHeaderScrollBehavior` (lines 115-146): look up `.header`, set
`lastScrollY` (line 117), register the throttled listener with `ticking`
false (lines 133-142), and call `handleScroll` once directly (line 145) —
the returned count records that single initialization-time execution. When
the header is absent that call dereferences `null` and the initialization
throws. -/
def initHeaderScrollBehavior (header : Option Header) (y : Int) :
    Except DOMError (CtlState × Nat) :=
  match handleScroll header y with
  | .error e => .error e
  | .ok (h, ly) =>
    .ok ({ header := h, lastScrollY := ly, ticking := false }, 1)

theorem mem_addClass_self (l : List String) (c : String) : c ∈ addClass l c := by
  unfold addClass
  split
  · assumption
  · simp

theorem not_mem_removeClass_self (l : List String) (c : String) :
    c ∉ removeClass l c := by
  simp [removeClass]

theorem hasClass_scrolled_handleScrollBody (h : Header) (y : Int) :
    hasClass (handleScrollBody h y) "header--scrolled" = true ↔ 10 < y := by
  unfold handleScrollBody
  by_cases hy : 10 < y
  · rw [if_pos hy]
    simpa [hasClass] using ⟨fun _ => hy, fun _ => mem_addClass_self _ _⟩
  · rw [if_neg hy]
    simpa [hasClass] using
      ⟨fun hmem => absurd hmem (not_mem_removeClass_self _ _), fun hlt => absurd hlt hy⟩

/-- C2: clicking a NavLink whose href is a fragment resolving to an existing
element, in a document that has a Header, prevents the default navigation,
issues one smooth scroll to exactly the target's offsetTop minus the
header's offsetHeight, and pushes the clicked href to the URL (recorded
separately from the scroll: pushState rewrites the fragment without a
further navigation or scroll). -/
theorem click_scrolls_with_header_offset (doc : Document) (h : String)
    (el : Element) (hd : Header)
    (hstart : jsStartsWithHash h = true)
    (hel : getElementById doc (jsDropFirst h) = some el)
    (hhd : doc.header = some hd) :
    handleNavClick doc (some h) =
      .ok { preventedDefault := true,
            smoothScrollTop := some (el.offsetTop - hd.offsetHeight),
            pushedHash := some h } := by
  simp [handleNavClick, hstart, hel, hhd]

theorem click_scrolls_with_header_offset_witness :
    (jsStartsWithHash "#projects" = true ∧
      getElementById ⟨[⟨"projects", 400⟩], some ⟨64, []⟩⟩
        (jsDropFirst "#projects") = some ⟨"projects", 400⟩ ∧
      (⟨[⟨"projects", 400⟩], some ⟨64, []⟩⟩ : Document).header = some ⟨64, []⟩) ∧
    handleNavClick ⟨[⟨"projects", 400⟩], some ⟨64, []⟩⟩ (some "#projects") =
      .ok { preventedDefault := true, smoothScrollTop := some (400 - 64),
            pushedHash := some "#projects" } :=
  ⟨⟨by decide, by decide, rfl⟩,
    click_scrolls_with_header_offset ⟨[⟨"projects", 400⟩], some ⟨64, []⟩⟩
      "#projects" ⟨"projects", 400⟩ ⟨64, []⟩ (by decide) (by decide) rfl⟩

/-- C6: clicking a NavLink whose fragment names a non-existent id performs
no scroll, no URL update, no preventDefault, and raises no error (the
handler returns the no-op outcome). -/
theorem click_missing_target_noop (doc : Document) (h : String)
    (hstart : jsStartsWithHash h = true)
    (hel : getElementById doc (jsDropFirst h) = none) :
    handleNavClick doc (some h) =
      .ok { preventedDefault := false, smoothScrollTop := none,
            pushedHash := none } := by
  simp [handleNavClick, hstart, hel]

theorem click_missing_target_noop_witness :
    (jsStartsWithHash "#missing" = true ∧
      getElementById ⟨[⟨"about", 10⟩], none⟩ (jsDropFirst "#missing") = none) ∧
    handleNavClick ⟨[⟨"about", 10⟩], none⟩ (some "#missing") =
      .ok { preventedDefault := false, smoothScrollTop := none,
            pushedHash := none } :=
  ⟨⟨by decide, by decide⟩,
    click_missing_target_noop ⟨[⟨"about", 10⟩], none⟩ "#missing"
      (by decide) (by decide)⟩

/-- C10: when the fragment target exists but no `.header` element does, the
header height falls back to 0 and the click scrolls to exactly the target's
offsetTop. -/
theorem click_no_header_scrolls_to_offsetTop (doc : Document) (h : String)
    (el : Element)
    (hstart : jsStartsWithHash h = true)
    (hel : getElementById doc (jsDropFirst h) = some el)
    (hhd : doc.header = none) :
    handleNavClick doc (some h) =
      .ok { preventedDefault := true, smoothScrollTop := some el.offsetTop,
            pushedHash := some h } := by
  simp [handleNavClick, hstart, hel, hhd]

theorem click_no_header_scrolls_to_offsetTop_witness :
    (jsStartsWithHash "#projects" = true ∧
      getElementById ⟨[⟨"projects", 400⟩], none⟩ (jsDropFirst "#projects") =
        some ⟨"projects", 400⟩ ∧
      (⟨[⟨"projects", 400⟩], none⟩ : Document).header = none) ∧
    handleNavClick ⟨[⟨"projects", 400⟩], none⟩ (some "#projects") =
      .ok { preventedDefault := true, smoothScrollTop := some 400,
            pushedHash := some "#projects" } :=
  ⟨⟨by decide, by decide, rfl⟩,
    click_no_header_scrolls_to_offsetTop ⟨[⟨"projects", 400⟩], none⟩
      "#projects" ⟨"projects", 400⟩ (by decide) (by decide) rfl⟩

/-- C3: one `handleScroll` execution on a present header is the pure body
`handleScrollBody`, and the resulting header carries `header--scrolled` if
and only if the current offset exceeds the threshold 10 — for every prior
header state, so there is no hysteresis: at offset 0 the class is absent,
above 10 it is present, back at or below 10 it is removed. -/
theorem header_scrolled_iff_offset_gt_ten (h : Header) (y : Int) :
    handleScroll (some h) y = .ok (handleScrollBody h y, y) ∧
    (hasClass (handleScrollBody h y) "header--scrolled" = true ↔ 10 < y) :=
  ⟨rfl, hasClass_scrolled_handleScrollBody h y⟩

/-- C9: initialization with a present header runs `handleScroll` exactly
once (the count 1 records the single direct call at line 145), before any
scroll event, leaving the header state already correct for the load-time
offset: scrolled if and only if the offset exceeds 10. -/
theorem init_evaluates_header_once (h : Header) (y : Int) :
    initHeaderScrollBehavior (some h) y =
      .ok ({ header := handleScrollBody h y, lastScrollY := y,
             ticking := false }, 1) ∧
    (hasClass (handleScrollBody h y) "header--scrolled" = true ↔ 10 < y) :=
  ⟨rfl, hasClass_scrolled_handleScrollBody h y⟩

theorem ctlStep_scroll (s : CtlState) (y : Int) :
    ctlStep s (.scroll y) = ({ s with ticking := true }, 0) := by
  simp only [ctlStep]
  split
  · obtain ⟨hh, ll, tt⟩ := s
    simp_all
  · rfl

theorem runEvents_append (a b : List CtlEvent) : ∀ s : CtlState,
    runEvents s (a ++ b) =
      ((runEvents (runEvents s a).1 b).1,
        (runEvents s a).2 + (runEvents (runEvents s a).1 b).2) := by
  induction a with
  | nil => intro s; simp [runEvents]
  | cons e es ih => intro s; simp [runEvents, ih, Nat.add_assoc]

theorem runEvents_scrolls (ys : List Int) : ∀ s : CtlState,
    runEvents s (ys.map CtlEvent.scroll) =
      (if ys.isEmpty then s else { s with ticking := true }, 0) := by
  induction ys with
  | nil => intro s; simp [runEvents]
  | cons y ys' ih =>
    intro s
    simp only [List.map_cons, runEvents, ctlStep_scroll, ih]
    cases ys' with
    | nil => simp
    | cons z zs => simp

/-- C7: any nonempty burst of scroll notifications followed by one rendering
frame produces exactly one `handleScroll` execution: the first notification
schedules the frame callback and sets `ticking`, later ones are ignored,
and the frame runs the single scheduled callback. -/
theorem scroll_burst_one_execution_per_frame (s : CtlState)
    (ys : List Int) (hne : ys ≠ []) (yf : Int) :
    (runEvents s (ys.map CtlEvent.scroll ++ [CtlEvent.frame yf])).2 = 1 := by
  rw [runEvents_append, runEvents_scrolls ys s]
  cases ys with
  | nil => exact absurd rfl hne
  | cons y t => simp [runEvents, ctlStep]

theorem scroll_burst_one_execution_per_frame_witness :
    (([3, 7] : List Int) ≠ []) ∧
    (runEvents ⟨⟨64, []⟩, 0, false⟩
      ([3, 7].map CtlEvent.scroll ++ [CtlEvent.frame 7])).2 = 1 :=
  ⟨by decide,
    scroll_burst_one_execution_per_frame ⟨⟨64, []⟩, 0, false⟩ [3, 7]
      (by decide) 7⟩

/-- C4 (counterexample): with no `.header` element in the document,
`initHeaderScrollBehavior` is not a silent no-op — its direct
`handleScroll()` call at line 145 dereferences `null` (lines 124/126) and
initialization throws an uncaught TypeError. -/
theorem missing_header_init_throws :
    initHeaderScrollBehavior none 0 = .error DOMError.nullHeader := rfl

/-- C4 (amended): the Anchor Navigator's click handler never raises — a
missing target or missing header only downgrades the action — but the
Header Shadow Controller's initialization raises exactly when the Header
element is absent.  -/
theorem silent_noop_except_missing_header :
    (∀ (doc : Document) (href : Option String),
      (handleNavClick doc href).isOk = true) ∧
    (∀ y : Int, (initHeaderScrollBehavior none y).isOk = false) ∧
    (∀ (h : Header) (y : Int),
      (initHeaderScrollBehavior (some h) y).isOk = true) := by
  refine ⟨?_, fun _ => rfl, fun _ _ => rfl⟩
  intro doc href
  cases href with
  | none => rfl
  | some h =>
    simp only [handleNavClick]
    split
    · split <;> rfl
    · rfl

end MainJs
